import Mathlib

/-!
Verification of the ERP order-data dashboard (`interactive_dashboard.py`):
the schema-normalization step (`load_data`), the sidebar filter engine
(`sidebar_filters`), and the five chart transforms.  pandas tables are
embedded as lists of rows together with table-level column-presence flags
(`col in df.columns` is a table-level fact in pandas); a missing cell
(pandas `NaN`/`NaT`) is `Option.none`.  A Python exception escaping a chart
function is modelled as `ChartResult.exn`, while `st.warning(msg)` followed
by `return None` is `ChartResult.warned msg`.
-/

namespace Dashboard

/-- A parsed timestamp, kept at month granularity: only the year, the month
and the quarter of a date are ever read by the dashboard logic
(lines 55-57 and 227 of `interactive_dashboard.py`). -/
structure Date where
  year : Int
  month : Nat
deriving DecidableEq

/-- pandas `Series.dt.quarter`: the quarter of month `1..12`. -/
def Date.quarter (d : Date) : Nat := (d.month + 2) / 3

/-- A raw date cell as fed to `pd.to_datetime` with coercing errors
(line 49): missing (`NaN`), present but unparseable, or a valid timestamp. -/
inductive RawDate where
  | null
  | bad
  | ok (d : Date)
deriving DecidableEq

/-- Per-cell `pd.to_datetime` with coercing errors: missing and
unparseable values both coerce to `NaT`, i.e. `none`. -/
def RawDate.parse : RawDate → Option Date
  | .null => none
  | .bad => none
  | .ok d => some d

/-- Which columns the raw source table has. -/
structure RawSchema where
  hasRegion : Bool
  hasProvince : Bool
  has_payment_date : Bool
  has_order_date : Bool
  has_create_time : Bool
  has_created_at : Bool
  has_date : Bool
  has_paid_amount : Bool
  has_product_amount : Bool
  has_amount : Bool
  has_total_amount : Bool
  hasQuantity : Bool
  hasUnitPrice : Bool
  hasProductName : Bool
  hasCategory : Bool
deriving DecidableEq

/-- One raw row.  A field is only meaningful when the corresponding
`RawSchema` flag is set (the code never reads a column that is absent). -/
structure RawRow where
  region : Option String := none
  province : Option String := none
  payment_date : RawDate := .null
  order_date : RawDate := .null
  create_time : RawDate := .null
  created_at : RawDate := .null
  date : RawDate := .null
  paid_amount : Option Int := none
  product_amount : Option Int := none
  amount : Option Int := none
  total_amount : Option Int := none
  quantity : Option Int := none
  unit_price : Option Int := none
  product_name : Option String := none
  category : Option String := none
deriving DecidableEq

/-- A raw tabular snapshot, as produced by `pd.read_excel` (line 24). -/
structure RawTable where
  schema : RawSchema
  rows : List RawRow
deriving DecidableEq

/-- The fixed province-to-region lookup table, lines 26-35. -/
def REGION_MAPPING : List (String × String) :=
  [("北京", "华北"), ("天津", "华北"), ("河北省", "华北"), ("山西省", "华北"),
   ("内蒙古自治区", "华北"),
   ("辽宁省", "东北"), ("吉林省", "东北"), ("黑龙江省", "东北"),
   ("上海", "华东"), ("江苏省", "华东"), ("浙江省", "华东"), ("安徽省", "华东"),
   ("福建省", "华东"), ("江西省", "华东"), ("山东省", "华东"),
   ("河南省", "华中"), ("湖北省", "华中"), ("湖南省", "华中"),
   ("广东省", "华南"), ("广西壮族自治区", "华南"), ("海南省", "华南"),
   ("重庆", "西南"), ("四川省", "西南"), ("贵州省", "西南"), ("云南省", "西南"),
   ("西藏自治区", "西南"),
   ("陕西省", "西北"), ("甘肃省", "西北"), ("青海省", "西北"),
   ("宁夏回族自治区", "西北"), ("新疆维吾尔自治区", "西北")]

/-- One cell of `Series.map(REGION_MAPPING)`: dictionary lookup, `NaN`
(`none`) when the key is not in the dictionary. -/
def lookupRegion (p : String) : Option String :=
  (REGION_MAPPING.find? (fun e => decide (e.1 = p))).map (fun e => e.2)

/-- Region resolution for one row, lines 38-43: if a `province` column
exists, a missing/absent `region` is filled from the lookup; afterwards any
still-missing region is filled with the literal `"其他"` (line 43). -/
def resolveRegion (s : RawSchema) (r : RawRow) : Option String :=
  let base : Option String :=
    if s.hasProvince then
      if s.hasRegion then r.region <|> (r.province.bind lookupRegion)
      else r.province.bind lookupRegion
    else r.region
  base <|> some ("其他")

/-- Line 52: whether any candidate date column exists, i.e. whether the
normalized table gets `_primary_date`, `year`, `month` and `quarter`
columns (lines 53-57). -/
def RawSchema.hasAnyDate (s : RawSchema) : Bool :=
  s.has_payment_date || s.has_order_date || s.has_create_time ||
    s.has_created_at || s.has_date

/-- Lines 46-54: the primary date of a row is the parsed value of the first
existing column among `payment_date, order_date, create_time, created_at,
date` (a single column chosen once for the whole table). -/
def rawPrimaryDate (s : RawSchema) (r : RawRow) : Option Date :=
  if s.has_payment_date then r.payment_date.parse
  else if s.has_order_date then r.order_date.parse
  else if s.has_create_time then r.create_time.parse
  else if s.has_created_at then r.created_at.parse
  else if s.has_date then r.date.parse
  else none

/-- Lines 60-65: whether the normalized table gets an `_amount` column. -/
def RawSchema.hasAnyAmount (s : RawSchema) : Bool :=
  s.has_paid_amount || s.has_product_amount || s.has_amount ||
    s.has_total_amount || (s.hasQuantity && s.hasUnitPrice)

/-- Lines 60-65: `_amount` is the first existing column among
`paid_amount, product_amount, amount, total_amount`; if none exists but
both `quantity` and `unit_price` do, it is their product. -/
def rawAmount (s : RawSchema) (r : RawRow) : Option Int :=
  if s.has_paid_amount then r.paid_amount
  else if s.has_product_amount then r.product_amount
  else if s.has_amount then r.amount
  else if s.has_total_amount then r.total_amount
  else if s.hasQuantity && s.hasUnitPrice then
    r.quantity.bind (fun q => r.unit_price.map (fun u => q * u))
  else none

/-- Columns of the normalized dataset that the filter and chart layers
inspect with `in df.columns`. -/
structure NormSchema where
  hasDateCols : Bool
  hasAmount : Bool
  hasQuantity : Bool
  hasProductName : Bool
  hasCategory : Bool
deriving DecidableEq

/-- One normalized row.  `region` stays an `Option` because pandas columns
are nullable; that it is never `none` after `load_data` is proved, not
assumed. -/
structure NormRow where
  region : Option String := none
  primaryDate : Option Date := none
  amount : Option Int := none
  quantity : Option Int := none
  productName : Option String := none
  category : Option String := none
deriving DecidableEq

/-- The normalized dataset handed to the filter and chart layers. -/
structure NormTable where
  schema : NormSchema
  rows : List NormRow
deriving DecidableEq

/-- Normalization of a single row (the per-row content of lines 38-69). -/
def normRow (s : RawSchema) (r : RawRow) : NormRow :=
  { region := resolveRegion s r
    primaryDate := rawPrimaryDate s r
    amount := rawAmount s r
    quantity := if s.hasQuantity then r.quantity else none
    productName := if s.hasProductName then r.product_name else none
    category := if s.hasCategory then r.category else none }

/-- The normalized schema produced by `load_data`. -/
def normSchema (s : RawSchema) : NormSchema :=
  { hasDateCols := s.hasAnyDate
    hasAmount := s.hasAnyAmount
    hasQuantity := s.hasQuantity
    hasProductName := s.hasProductName
    hasCategory := s.hasCategory }

/-- Function `load_data`, lines 21-74.  When the table has neither a
`region` nor a `province` column, line 43 reads the `region` column of a
table without one and raises `KeyError`; the `except` at lines 72-74 turns this into a
user-visible load error and returns `None` (modelled as `none`). -/
def load_data (t : RawTable) : Option NormTable :=
  if t.schema.hasRegion = false ∧ t.schema.hasProvince = false then none
  else some { schema := normSchema t.schema, rows := t.rows.map (normRow t.schema) }

/-! ## Filter engine (`sidebar_filters`, lines 76-121) -/

/-- The `year` of a normalized row (line 55: the year of `_primary_date`). -/
def yearOf (r : NormRow) : Option Int := r.primaryDate.map (fun d => d.year)

/-- The `(year, month)` key of line 227 (`dt.to_period` by month). -/
def ymKey (r : NormRow) : Option (Int × Nat) :=
  r.primaryDate.map (fun d => (d.year, d.month))

/-- The `(year, quarter)` key of line 280. -/
def yqKey (r : NormRow) : Option (Int × Nat) :=
  r.primaryDate.map (fun d => (d.year, d.quarter))

/-- Lexicographic order on `(year, month)` / `(year, quarter)` keys, the
order in which pandas sorts groupby keys. -/
def ymRel (a b : Int × Nat) : Prop := a.1 < b.1 ∨ (a.1 = b.1 ∧ a.2 ≤ b.2)

instance : DecidableRel ymRel :=
  fun a b => decidable_of_iff (a.1 < b.1 ∨ (a.1 = b.1 ∧ a.2 ≤ b.2)) Iff.rfl

/-- One nullable cell of `Series.isin(sel)`: `NaN` is never a member. -/
def inOpt {α : Type} [DecidableEq α] (v : Option α) (sel : List α) : Bool :=
  match v with
  | some x => decide (x ∈ sel)
  | none => false

/-- Code-point lexicographic comparison of character lists, written by
structural recursion so that it evaluates inside `decide`. -/
def charListLt : List Char → List Char → Bool
  | _, [] => false
  | [], _ :: _ => true
  | a :: as, b :: bs =>
    if a.val < b.val then true
    else if b.val < a.val then false
    else charListLt as bs

/-- The string order Python `sorted` uses: lexicographic on code
points. -/
def strLe (a b : String) : Bool := !(charListLt b.data a.data)

/-- Pattern `sorted(series.dropna().unique())`: distinct non-null
values, ascending. -/
def sortedUnique (l : List (Option String)) : List String :=
  (l.filterMap id).dedup.insertionSort (fun a b => strLe a b = true)

/-- Line 82: the year filter options. -/
def observedYears (rows : List NormRow) : List Int :=
  (rows.filterMap yearOf).dedup.insertionSort (fun a b => a ≤ b)

/-- Line 92: the region filter options (`unique()` without `dropna()`;
after `load_data` the region column has no nulls, which is proved below). -/
def observedRegions (rows : List NormRow) : List String :=
  sortedUnique (rows.map (fun r => r.region))

/-- Line 101: the product filter options. -/
def observedProducts (rows : List NormRow) : List String :=
  sortedUnique (rows.map (fun r => r.productName))

/-- Lines 114-115: `if selected_years: ... isin(selected_years)`.  An empty
selection is falsy in Python, so no restriction is applied. -/
def filterYears (rows : List NormRow) (ys : List Int) : List NormRow :=
  if ys.isEmpty then rows else rows.filter (fun r => inOpt (yearOf r) ys)

/-- Lines 116-117. -/
def filterRegions (rows : List NormRow) (rs : List String) : List NormRow :=
  if rs.isEmpty then rows else rows.filter (fun r => inOpt r.region rs)

/-- Lines 118-119. -/
def filterProducts (rows : List NormRow) (ps : List String) : List NormRow :=
  if ps.isEmpty then rows else rows.filter (fun r => inOpt r.productName ps)

/-- Lines 113-121: the three `isin` filters applied in sequence.  A `None`
selection (filter not offered) behaves exactly like an empty list: both are
falsy at lines 114/116/118. -/
def applyFilters (rows : List NormRow) (ys : List Int) (rs ps : List String) :
    List NormRow :=
  filterProducts (filterRegions (filterYears rows ys) rs) ps

/-- Lines 100-111: the product filter is offered only when the dataset has
a `product_name` column with at most 50 distinct non-null values. -/
def productOptions (nt : NormTable) : Option (List String) :=
  if nt.schema.hasProductName then
    let ps := observedProducts nt.rows
    if ps.length ≤ 50 then some ps else none
  else none

/-- Line 106: the default product selection is the first 10 options when
there are more than 10, otherwise all of them; `None` (filter not offered)
contributes no restriction, modelled as `[]`. -/
def defaultProductSelection (nt : NormTable) : List String :=
  match productOptions nt with
  | some ps => if 10 < ps.length then ps.take 10 else ps
  | none => []

/-- The filtered view produced by `sidebar_filters` when the user leaves
every widget at its default value (lines 83-87, 93-97, 103-107). -/
def sidebarDefaultView (nt : NormTable) : List NormRow :=
  applyFilters nt.rows
    (if nt.schema.hasDateCols then observedYears nt.rows else [])
    (observedRegions nt.rows)
    (defaultProductSelection nt)

/-! ## Aggregation helpers shared by the chart transforms -/

/-- The value column a chart aggregates: the derived `_quantity` or the
derived `_amount`. -/
inductive VField where
  | quantity
  | amount
deriving DecidableEq

/-- Reading the chosen value column from a row. -/
def fieldCell (f : VField) (r : NormRow) : Option Int :=
  match f with
  | .quantity => r.quantity
  | .amount => r.amount

/-- Whether the chosen value column exists in the table (aggregating a
non-existent column raises `KeyError`). -/
def fieldExists (s : NormSchema) (f : VField) : Bool :=
  match f with
  | .quantity => s.hasQuantity
  | .amount => s.hasAmount

/-- Line 129/182/328: `_quantity` when that column exists, else
`_amount`. -/
def distField (s : NormSchema) : VField :=
  if s.hasQuantity then .quantity else .amount

/-- Line 223/277: `_amount` when that column exists, else
`_quantity`. -/
def timeField (s : NormSchema) : VField :=
  if s.hasAmount then .amount else .quantity

/-- The sorted distinct non-null keys of a pandas groupby. -/
def groupKeys {K : Type} [DecidableEq K] (le : K → K → Prop) [DecidableRel le]
    (key : NormRow → Option K) (rows : List NormRow) : List K :=
  ((rows.filterMap key).dedup).insertionSort le

/-- One group of `df.groupby(key)[val].sum()`: pandas sums skip
`NaN` cells (`skipna`), an all-`NaN` group sums to `0`. -/
def sumAt {K : Type} [DecidableEq K] (key : NormRow → Option K)
    (val : NormRow → Option Int) (rows : List NormRow) (k : K) : Int :=
  ((rows.filter (fun row => decide (key row = some k))).filterMap val).sum

/-- Whole `df.groupby(key, as_index=False)[val].sum()`: one output row
per distinct non-null key, keys sorted ascending. -/
def groupSumBy {K : Type} [DecidableEq K] (le : K → K → Prop) [DecidableRel le]
    (key : NormRow → Option K) (val : NormRow → Option Int)
    (rows : List NormRow) : List (K × Int) :=
  (groupKeys le key rows).map (fun k => (k, sumAt key val rows k))

instance decRelValDesc {K : Type} :
    DecidableRel (fun (a b : K × Int) => b.2 ≤ a.2) :=
  fun a b => inferInstanceAs (Decidable (b.2 ≤ a.2))

/-- Pattern `.sort_values(value, ascending=False)`. -/
def sortDescByVal {K : Type} (l : List (K × Int)) : List (K × Int) :=
  l.insertionSort (fun a b => b.2 ≤ a.2)

/-! ## Chart transforms (lines 123-358) -/

/-- Outcome of a chart function: an escaped Python exception, an
`st.warning` + `return None` empty state, or a returned figure whose
data content is `a`. -/
inductive ChartResult (α : Type) where
  | exn
  | warned (msg : String)
  | drawn (a : α)
deriving DecidableEq

/-- Function `plot_regional_gradient_bars`, lines 123-174, parametric in the value
column.  The aggregate (lines 130-133) carries, per region, the value sum
and the order count, sorted by sum descending.  On an empty aggregate the
loop body never runs, and line 157 evaluates `max(quantities)` on an empty
list, raising `ValueError` (line 166 would likewise raise `IndexError`). -/
def regionalResult (nt : NormTable) (f : VField) :
    ChartResult (List (String × Int × Nat)) :=
  if fieldExists nt.schema f = false then .exn
  else
    let stats :=
      ((groupKeys (fun a b => strLe a b = true) (fun r => r.region) nt.rows).map
        (fun k => (k, sumAt (fun r => r.region) (fieldCell f) nt.rows k,
          (nt.rows.filter (fun row => decide (row.region = some k))).length))).insertionSort
        (fun a b => b.2.1 ≤ a.2.1)
    if stats.isEmpty then .exn else .drawn stats

/-- Line 129. -/
def plot_regional_gradient_bars (nt : NormTable) :
    ChartResult (List (String × Int × Nat)) :=
  regionalResult nt (distField nt.schema)

/-- Function `plot_top_products`, lines 176-211, parametric in the value column:
group by `product_name` (else `category`), sum, sort descending, keep the
first `n`.  With neither column the guard at lines 185-187 warns and
returns `None`; an empty aggregate still returns a figure (`barh` of an
empty list draws nothing but succeeds). -/
def topResult (nt : NormTable) (n : Nat) (f : VField) :
    ChartResult (List (String × Int)) :=
  if nt.schema.hasProductName = false ∧ nt.schema.hasCategory = false then
    .warned ("数据中没有产品或类别列")
  else if fieldExists nt.schema f = false then .exn
  else
    .drawn ((sortDescByVal (groupSumBy (fun a b => strLe a b = true)
      (fun r => if nt.schema.hasProductName then r.productName else r.category)
      (fieldCell f) nt.rows)).take n)

/-- Line 182. -/
def plot_top_products (nt : NormTable) (n : Nat) :
    ChartResult (List (String × Int)) :=
  topResult nt n (distField nt.schema)

/-- The shape of the monthly-trend drawing. -/
inductive TrendCurve where
  | segments
  | spline (deg : Nat) (samples : Nat)
deriving DecidableEq

/-- The monthly-trend figure: a connecting curve plus the true monthly
points scattered and labelled on top (lines 243-251). -/
structure TrendDrawing where
  curve : TrendCurve
  points : List ((Int × Nat) × Int)
deriving DecidableEq

/-- Lines 226-229: sum the value column per calendar month, rows with a
null `_primary_date` dropped, buckets sorted by period. -/
def monthlyOn (f : VField) (rows : List NormRow) : List ((Int × Nat) × Int) :=
  groupSumBy ymRel ymKey (fieldCell f) rows

/-- Function `plot_monthly_trend`, lines 213-265, parametric in the value column:
no date column warns (line 216); fewer than 2 monthly buckets warns
(lines 231-233); more than 3 buckets fits an interpolating spline of degree
`min(3, len(monthly)-1)` sampled at 300 points (lines 239-243); otherwise
the points are joined by straight segments (line 245). -/
def trendResult (nt : NormTable) (f : VField) : ChartResult TrendDrawing :=
  if nt.schema.hasDateCols = false then .warned ("数据中没有有效的日期列")
  else if fieldExists nt.schema f = false then .exn
  else
    let monthly := monthlyOn f nt.rows
    if monthly.length < 2 then .warned ("数据点不足,无法绘制趋势图")
    else if 3 < monthly.length then
      .drawn ⟨.spline (min 3 (monthly.length - 1)) 300, monthly⟩
    else .drawn ⟨.segments, monthly⟩

/-- Line 223. -/
def plot_monthly_trend (nt : NormTable) : ChartResult TrendDrawing :=
  trendResult nt (timeField nt.schema)

/-- Line 280: the `(year, quarter)` aggregate. -/
def quarterlyAggOn (f : VField) (rows : List NormRow) :
    List ((Int × Nat) × Int) :=
  groupSumBy ymRel yqKey (fieldCell f) rows

/-- Lines 293-295: the four bar heights for one year, quarters 1-4, zero
when the `(year, quarter)` combination is absent from the aggregate. -/
def quarterValuesFrom (agg : List ((Int × Nat) × Int)) (y : Int) : List Int :=
  [1, 2, 3, 4].map (fun q =>
    (((agg.find? (fun e => decide (e.1 = (y, q)))).map (fun e => e.2)).getD 0))

/-- Function `plot_quarterly_comparison`, lines 267-320, parametric in the value
column: no `year`/`quarter` columns warns (lines 269-271); no year with
data warns (lines 283-285); otherwise one cluster of four bars per
distinct year (lines 291-295). -/
def quarterlyResult (nt : NormTable) (f : VField) :
    ChartResult (List (Int × List Int)) :=
  if nt.schema.hasDateCols = false then .warned ("数据中没有季度信息")
  else if fieldExists nt.schema f = false then .exn
  else
    let agg := quarterlyAggOn f nt.rows
    let years := ((agg.map (fun e => e.1.1)).dedup).insertionSort (fun a b => a ≤ b)
    if years.isEmpty then .warned ("没有可用的年度数据")
    else .drawn (years.map (fun y => (y, quarterValuesFrom agg y)))

/-- Line 277. -/
def plot_quarterly_comparison (nt : NormTable) :
    ChartResult (List (Int × List Int)) :=
  quarterlyResult nt (timeField nt.schema)

/-- One polar bar of the rose chart.  Line 342 places bar `idx` of `count`
at angle `2π·idx/count` and line 343 gives every bar the angular width
`2π/count`; the wedge records the exact pair `(idx, count)` determining
both angles, the bar radius (= aggregate value, line 346) and its label. -/
structure RoseWedge where
  idx : Nat
  count : Nat
  radius : Int
  label : String
deriving DecidableEq

/-- The angular position of a wedge in turns (1 turn = 2π radians):
`theta = np.linspace(0, 2*np.pi, n, endpoint=False)[i] = 2π·i/n`
(line 342). -/
def RoseWedge.thetaTurns (w : RoseWedge) : ℚ := (w.idx : ℚ) / (w.count : ℚ)

/-- The angular width of a wedge in turns: `width = 2*np.pi/len(values)`
(line 343) is `1/count` of a full turn. -/
def RoseWedge.widthTurns (w : RoseWedge) : ℚ := 1 / (w.count : ℚ)

/-- Lines 342-347: bar `i` of `n`, radius = aggregate value. -/
def roseWedges (n : Nat) (i : Nat) : List (String × Int) → List RoseWedge
  | [] => []
  | (l, v) :: rest => ⟨i, n, v, l⟩ :: roseWedges n (i + 1) rest

/-- Lines 331-333: group by `category` (else `region`), sum, sort
descending, keep the top 12. -/
def roseAggOn (nt : NormTable) (f : VField) : List (String × Int) :=
  (sortDescByVal (groupSumBy (fun a b => strLe a b = true)
    (fun r => if nt.schema.hasCategory then r.category else r.region)
    (fieldCell f) nt.rows)).take 12

/-- Function `plot_rose_chart`, lines 322-358, parametric in the value column: an
empty aggregate warns (lines 338-340); otherwise the top categories are
spread evenly around the circle. -/
def roseResult (nt : NormTable) (f : VField) : ChartResult (List RoseWedge) :=
  if fieldExists nt.schema f = false then .exn
  else
    let agg := roseAggOn nt f
    if agg.isEmpty then .warned ("没有足够的数据绘制玫瑰图")
    else .drawn (roseWedges agg.length 0 agg)

/-- Line 328. -/
def plot_rose_chart (nt : NormTable) : ChartResult (List RoseWedge) :=
  roseResult nt (distField nt.schema)

/-- The quarterly sum the claim about the `(year, quarter)` grid refers
to: total of the chart value column over the rows of that year and
quarter. -/
def qSum (nt : NormTable) (y : Int) (q : Nat) : Int :=
  sumAt yqKey (fieldCell (timeField nt.schema)) nt.rows (y, q)

/-! ## Concrete tables used to instantiate the theorems -/

/-- A parseable raw table with one row and neither a `region` nor a
`province` column. -/
def rawNoGeo : RawTable :=
  { schema := { hasRegion := false, hasProvince := false, has_payment_date := false,
                has_order_date := false, has_create_time := false, has_created_at := false,
                has_date := false, has_paid_amount := false, has_product_amount := false,
                has_amount := false, has_total_amount := false, hasQuantity := true,
                hasUnitPrice := false, hasProductName := false, hasCategory := false }
    rows := [{ quantity := some 3 }] }

/-- A raw schema with only a `province` column. -/
def geoSchema : RawSchema :=
  { hasRegion := false, hasProvince := true, has_payment_date := false,
    has_order_date := false, has_create_time := false, has_created_at := false,
    has_date := false, has_paid_amount := false, has_product_amount := false,
    has_amount := false, has_total_amount := false, hasQuantity := false,
    hasUnitPrice := false, hasProductName := false, hasCategory := false }

/-- A raw table with a `province` column only: one mapped province, one
province outside the lookup. -/
def rawGeoT : RawTable :=
  { schema := geoSchema
    rows := [{ province := some ("广东省") }, { province := some ("台湾省") }] }

/-- The value `load_data` produces on `rawGeoT`. -/
def normGeoT : NormTable :=
  { schema := { hasDateCols := false, hasAmount := false, hasQuantity := false,
                hasProductName := false, hasCategory := false }
    rows := [{ region := some ("华南") }, { region := some ("其他") }] }

/-- A raw row whose province is outside the lookup. -/
def taiwanRow : RawRow := { province := some ("台湾省") }

/-- Modelled from the spec: the spec calls the lookup exhaustive for the
34 provincial units of China, but the source has no list of those units.
These are the 34 provincial-level administrative units (23 provinces,
5 autonomous regions, 4 municipalities, 2 special administrative regions),
named in the same style the dataset uses for provinces. -/
def chinaProvincialUnits : List String :=
  ["北京", "天津", "上海", "重庆",
   "河北省", "山西省", "辽宁省", "吉林省", "黑龙江省", "江苏省", "浙江省",
   "安徽省", "福建省", "江西省", "山东省", "河南省", "湖北省", "湖南省",
   "广东省", "海南省", "四川省", "贵州省", "云南省", "陕西省", "甘肃省",
   "青海省", "台湾省",
   "内蒙古自治区", "广西壮族自治区", "西藏自治区", "宁夏回族自治区",
   "新疆维吾尔自治区",
   "香港特别行政区", "澳门特别行政区"]

/-- A filtered view with zero rows, every optional column present. -/
def c1EmptyView : NormTable :=
  { schema := { hasDateCols := true, hasAmount := true, hasQuantity := true,
                hasProductName := true, hasCategory := true }
    rows := [] }

/-- Another zero-row filtered view (no `category` column). -/
def c1WitnessView : NormTable :=
  { schema := { hasDateCols := true, hasAmount := true, hasQuantity := true,
                hasProductName := true, hasCategory := false }
    rows := [] }

/-- Two normalized rows of which one has a null year: the second row has
a `NaT` `_primary_date`, so its `year` is `NaN`. -/
def c2Rows : List NormRow :=
  [{ region := some ("华南"), primaryDate := some ⟨2024, 1⟩ },
   { region := some ("华南") }]

/-- Normalized rows with no nulls in any filterable dimension. -/
def c2AllRows : List NormRow :=
  [{ region := some ("华南"), primaryDate := some ⟨2024, 1⟩,
     productName := some ("连衣裙") },
   { region := some ("华北"), primaryDate := some ⟨2023, 6⟩,
     productName := some ("羽绒服") }]

/-- A normalized dataset with exactly two monthly buckets
(the example given in the spec: 2024-01 to 100, 2024-02 to 150). -/
def c7Table : NormTable :=
  { schema := { hasDateCols := true, hasAmount := true, hasQuantity := false,
                hasProductName := false, hasCategory := false }
    rows := [{ region := some ("华东"), primaryDate := some ⟨2024, 1⟩, amount := some 100 },
             { region := some ("华东"), primaryDate := some ⟨2024, 2⟩, amount := some 150 }] }

/-- A normalized dataset with data in one quarter of one year. -/
def c8Table : NormTable :=
  { schema := { hasDateCols := true, hasAmount := true, hasQuantity := false,
                hasProductName := false, hasCategory := false }
    rows := [{ region := some ("华东"), primaryDate := some ⟨2024, 1⟩, amount := some 100 },
             { region := some ("华东"), primaryDate := some ⟨2024, 2⟩, amount := some 150 }] }

/-- A normalized dataset with a single rose-chart category. -/
def c9Table : NormTable :=
  { schema := { hasDateCols := false, hasAmount := false, hasQuantity := true,
                hasProductName := false, hasCategory := true }
    rows := [{ region := some ("华东"), quantity := some 7, category := some ("上衣") },
             { region := some ("华东"), quantity := some 5, category := some ("上衣") }] }

/-- A normalized dataset with 11 distinct product names. -/
def c10Table : NormTable :=
  { schema := { hasDateCols := false, hasAmount := false, hasQuantity := true,
                hasProductName := true, hasCategory := false }
    rows := (["p01", "p02", "p03", "p04", "p05", "p06", "p07", "p08", "p09",
              "p10", "p11"].map (fun p =>
      { region := some ("华东"), quantity := some 1, productName := some p })) }

/-! ## Shared lemmas -/

theorem orElse_some_isSome {α : Type} (x : Option α) (y : α) :
    (x <|> some y).isSome = true := by
  cases x <;> rfl

theorem lookupRegion_mem {p v : String} (h : lookupRegion p = some v) :
    v ∈ REGION_MAPPING.map (fun e => e.2) := by
  unfold lookupRegion at h
  cases hf : REGION_MAPPING.find? (fun e => decide (e.1 = p)) with
  | none => rw [hf] at h; simp at h
  | some e =>
    rw [hf] at h
    simp only [Option.map_some', Option.some_inj] at h
    exact h ▸ List.mem_map.mpr ⟨e, List.mem_of_find?_eq_some hf, rfl⟩

/-! ## Claim theorems -/

/-- C5 counterexample: `rawNoGeo` is a parseable tabular snapshot (one row)
whose only missing columns are optional ones (`region`, `province`), yet
`load_data` surfaces a load error (`None`) on it. -/
theorem c5_counterexample :
    load_data rawNoGeo = none ∧ rawNoGeo.rows.length = 1 := by decide

/-- C5 (amended): normalization succeeds exactly when the table has a
`region` or a `province` column; for a parseable table with neither,
line 43 raises `KeyError` and the load is surfaced as a load error. -/
theorem c5_load_succeeds_iff (t : RawTable) :
    (load_data t).isSome = true ↔
      (t.schema.hasRegion = true ∨ t.schema.hasProvince = true) := by
  cases hR : t.schema.hasRegion <;> cases hP : t.schema.hasProvince <;>
    simp [load_data, hR, hP]

/-- C3: after a successful load every row has a region value, and when the
source table had no `region` column that value is in the range of the
province lookup or is the literal `"其他"`. -/
theorem c3_region_invariant (t : RawTable) (nt : NormTable)
    (h : load_data t = some nt) :
    (∀ r ∈ nt.rows, r.region.isSome = true) ∧
    (t.schema.hasRegion = false →
      ∀ r ∈ nt.rows, r.region = some ("其他") ∨
        ∃ v, r.region = some v ∧ v ∈ REGION_MAPPING.map (fun e => e.2)) := by
  unfold load_data at h
  split at h
  · exact absurd h (by simp)
  · rename_i hcond
    rw [Option.some_inj] at h
    subst h
    constructor
    · intro r hr
      obtain ⟨raw, _, rfl⟩ := List.mem_map.mp hr
      exact orElse_some_isSome _ _
    · intro hreg r hr
      obtain ⟨raw, _, rfl⟩ := List.mem_map.mp hr
      have hprov : t.schema.hasProvince = true := by
        cases hP : t.schema.hasProvince
        · exact absurd ⟨hreg, hP⟩ hcond
        · rfl
      show (normRow t.schema raw).region = _ ∨ _
      simp only [normRow, resolveRegion, hprov, hreg, if_true, if_false,
        Bool.false_eq_true]
      cases hb : raw.province.bind lookupRegion with
      | none => left; rfl
      | some v =>
        right
        refine ⟨v, rfl, ?_⟩
        obtain ⟨p, _, hp⟩ := Option.bind_eq_some.mp hb
        exact lookupRegion_mem hp

/-- C3 witness: the invariant instantiated on a concrete table with a
`province` column only. -/
theorem c3_witness :
    (∀ r ∈ normGeoT.rows, r.region.isSome = true) ∧
    (∀ r ∈ normGeoT.rows, r.region = some ("其他") ∨
      ∃ v, r.region = some v ∧ v ∈ REGION_MAPPING.map (fun e => e.2)) :=
  ⟨(c3_region_invariant rawGeoT normGeoT (by decide)).1,
   (c3_region_invariant rawGeoT normGeoT (by decide)).2 rfl⟩

/-- C4 counterexample: the lookup has 31 distinct keys, so it cannot
contain an entry for each of the 34 provincial-level units of China;
concretely
台湾省, 香港特别行政区 and 澳门特别行政区 are provincial units with no
entry. -/
theorem c4_counterexample :
    chinaProvincialUnits.length = 34 ∧ chinaProvincialUnits.Nodup ∧
    (REGION_MAPPING.map (fun e => e.1)).length = 31 ∧
    ("台湾省" ∈ chinaProvincialUnits ∧ lookupRegion ("台湾省") = none) ∧
    ("香港特别行政区" ∈ chinaProvincialUnits ∧
      lookupRegion ("香港特别行政区") = none) ∧
    ("澳门特别行政区" ∈ chinaProvincialUnits ∧
      lookupRegion ("澳门特别行政区") = none) := by decide

/-- C4 (amended): the lookup contains 31 distinct provincial units (the
mainland ones), not all 34, and any province value outside the lookup —
or an absent province — resolves to the literal `"其他"` when the source
has no `region` column. -/
theorem c4_lookup_coverage (s : RawSchema) (r : RawRow)
    (hreg : s.hasRegion = false) (hprov : s.hasProvince = true) :
    ((REGION_MAPPING.map (fun e => e.1)).Nodup ∧ REGION_MAPPING.length = 31) ∧
    (∀ p, r.province = some p → lookupRegion p = none →
      (normRow s r).region = some ("其他")) ∧
    (r.province = none → (normRow s r).region = some ("其他")) := by
  refine ⟨by decide, fun p hp hmiss => ?_, fun hp => ?_⟩ <;>
    simp [normRow, resolveRegion, hreg, hprov, hp]
  simp [hmiss]

/-- C4 witness: a row whose province is 台湾省 normalizes to `"其他"`. -/
theorem c4_witness : (normRow geoSchema taiwanRow).region = some ("其他") :=
  (c4_lookup_coverage geoSchema taiwanRow rfl rfl).2.1 ("台湾省") rfl (by decide)

/-- C1 counterexample: on a zero-row filtered view with every column
present, only three of the five transforms return the insufficient-data
outcome; the regional gradient chart raises (`max()` of an empty sequence,
line 157) and the top-N chart returns an empty but successful figure. -/
theorem c1_counterexample :
    plot_regional_gradient_bars c1EmptyView = ChartResult.exn ∧
    plot_top_products c1EmptyView 10 = ChartResult.drawn [] ∧
    plot_monthly_trend c1EmptyView =
      ChartResult.warned ("数据点不足,无法绘制趋势图") ∧
    plot_quarterly_comparison c1EmptyView =
      ChartResult.warned ("没有可用的年度数据") ∧
    plot_rose_chart c1EmptyView =
      ChartResult.warned ("没有足够的数据绘制玫瑰图") := by decide

/-- C1 (amended): for every zero-row filtered view whose value, date and
product columns exist, the monthly-trend, quarterly-comparison and rose
transforms return the insufficient-data outcome, while the regional
gradient transform raises an exception and the top-N transform returns an
empty-but-successful drawing. -/
theorem c1_empty_view_outcomes (nt : NormTable) (n : Nat) (h0 : nt.rows = [])
    (hq : nt.schema.hasQuantity = true) (ha : nt.schema.hasAmount = true)
    (hd : nt.schema.hasDateCols = true) (hp : nt.schema.hasProductName = true) :
    plot_regional_gradient_bars nt = ChartResult.exn ∧
    plot_top_products nt n = ChartResult.drawn [] ∧
    plot_monthly_trend nt = ChartResult.warned ("数据点不足,无法绘制趋势图") ∧
    plot_quarterly_comparison nt = ChartResult.warned ("没有可用的年度数据") ∧
    plot_rose_chart nt = ChartResult.warned ("没有足够的数据绘制玫瑰图") := by
  refine ⟨?_, ?_, ?_, ?_, ?_⟩ <;>
    simp [plot_regional_gradient_bars, plot_top_products, plot_monthly_trend,
      plot_quarterly_comparison, plot_rose_chart, regionalResult, topResult,
      trendResult, quarterlyResult, roseResult, distField, timeField,
      fieldExists, groupKeys, groupSumBy, monthlyOn, quarterlyAggOn,
      roseAggOn, sortDescByVal, roseWedges, h0, hq, ha, hd, hp]

/-- C1 witness: the amended statement instantiated on a second concrete
zero-row view. -/
theorem c1_witness :
    plot_regional_gradient_bars c1WitnessView = ChartResult.exn ∧
    plot_top_products c1WitnessView 5 = ChartResult.drawn [] ∧
    plot_monthly_trend c1WitnessView =
      ChartResult.warned ("数据点不足,无法绘制趋势图") ∧
    plot_quarterly_comparison c1WitnessView =
      ChartResult.warned ("没有可用的年度数据") ∧
    plot_rose_chart c1WitnessView =
      ChartResult.warned ("没有足够的数据绘制玫瑰图") :=
  c1_empty_view_outcomes c1WitnessView 5 rfl rfl rfl rfl rfl

/-- C6: all five charts resolve their value column by the same policy the
source writes at lines 129, 182, 223, 277 and 328 — the distribution
charts (regional, top-N, rose) aggregate `_quantity` when it exists and
`_amount` otherwise, while the temporal charts (monthly trend, quarterly
comparison) aggregate `_amount` when it exists and `_quantity`
otherwise. -/
theorem c6_value_field_policy (nt : NormTable) (n : Nat) :
    plot_regional_gradient_bars nt =
      regionalResult nt
        (if nt.schema.hasQuantity then VField.quantity else VField.amount) ∧
    plot_top_products nt n =
      topResult nt n
        (if nt.schema.hasQuantity then VField.quantity else VField.amount) ∧
    plot_rose_chart nt =
      roseResult nt
        (if nt.schema.hasQuantity then VField.quantity else VField.amount) ∧
    plot_monthly_trend nt =
      trendResult nt
        (if nt.schema.hasAmount then VField.amount else VField.quantity) ∧
    plot_quarterly_comparison nt =
      quarterlyResult nt
        (if nt.schema.hasAmount then VField.amount else VField.quantity) :=
  ⟨rfl, rfl, rfl, rfl, rfl⟩

/-- C7: the monthly trend warns below 2 buckets, joins the true points by
straight segments at 2 or 3 buckets, and above 3 buckets draws a spline of
degree `min(3, buckets-1)` sampled at 300 points with the true monthly
points still marked on top. -/
theorem c7_trend_shape (nt : NormTable)
    (hd : nt.schema.hasDateCols = true)
    (hf : fieldExists nt.schema (timeField nt.schema) = true) :
    ((monthlyOn (timeField nt.schema) nt.rows).length < 2 →
      plot_monthly_trend nt =
        ChartResult.warned ("数据点不足,无法绘制趋势图")) ∧
    (((monthlyOn (timeField nt.schema) nt.rows).length = 2 ∨
        (monthlyOn (timeField nt.schema) nt.rows).length = 3) →
      plot_monthly_trend nt = ChartResult.drawn
        ⟨TrendCurve.segments, monthlyOn (timeField nt.schema) nt.rows⟩) ∧
    (3 < (monthlyOn (timeField nt.schema) nt.rows).length →
      plot_monthly_trend nt = ChartResult.drawn
        ⟨TrendCurve.spline
          (min 3 ((monthlyOn (timeField nt.schema) nt.rows).length - 1)) 300,
          monthlyOn (timeField nt.schema) nt.rows⟩) := by
  unfold plot_monthly_trend trendResult
  rw [hd, hf]
  simp only [Bool.true_eq_false, if_false]
  refine ⟨fun h => ?_, fun h => ?_, fun h => ?_⟩
  · rw [if_pos h]
  · rw [if_neg (by omega), if_neg (by omega)]
  · rw [if_neg (by omega), if_pos h]

/-- C7 witness: the example of the spec — exactly two monthly buckets render as
the two true points joined by straight segments, not a smoothed curve. -/
theorem c7_witness :
    plot_monthly_trend c7Table = ChartResult.drawn
      ⟨TrendCurve.segments, [((2024, 1), 100), ((2024, 2), 150)]⟩ := by
  have h := (c7_trend_shape c7Table rfl rfl).2.1 (Or.inl (by decide))
  rw [h]
  decide

theorem mem_observedYears {rows : List NormRow} {y : Int} :
    y ∈ observedYears rows ↔ ∃ r ∈ rows, yearOf r = some y := by
  unfold observedYears
  rw [List.mem_insertionSort, List.mem_dedup, List.mem_filterMap]

theorem mem_sortedUnique (l : List (Option String))
    (a : String) : a ∈ sortedUnique l ↔ some a ∈ l := by
  unfold sortedUnique
  rw [List.mem_insertionSort, List.mem_dedup, List.mem_filterMap]
  simp

theorem mem_of_filterYears {rows : List NormRow} {ys : List Int}
    {r : NormRow} (h : r ∈ filterYears rows ys) : r ∈ rows := by
  unfold filterYears at h
  by_cases hys : ys.isEmpty
  · rwa [if_pos hys] at h
  · rw [if_neg hys] at h
    exact (List.mem_filter.mp h).1

theorem mem_of_filterRegions {rows : List NormRow} {rs : List String}
    {r : NormRow} (h : r ∈ filterRegions rows rs) : r ∈ rows := by
  unfold filterRegions at h
  by_cases hrs : rs.isEmpty
  · rwa [if_pos hrs] at h
  · rw [if_neg hrs] at h
    exact (List.mem_filter.mp h).1

theorem filterYears_observed (rows : List NormRow)
    (h : ∀ r ∈ rows, (yearOf r).isSome = true) :
    filterYears rows (observedYears rows) = rows := by
  unfold filterYears
  by_cases he : (observedYears rows).isEmpty
  · rw [if_pos he]
  · rw [if_neg he]
    apply List.filter_eq_self.mpr
    intro r hr
    obtain ⟨y, hy⟩ := Option.isSome_iff_exists.mp (h r hr)
    simp only [inOpt, hy, decide_eq_true_eq]
    exact mem_observedYears.mpr ⟨r, hr, hy⟩

theorem filterRegions_observed (rows sub : List NormRow)
    (hsub : ∀ r ∈ sub, r ∈ rows)
    (h : ∀ r ∈ rows, r.region.isSome = true) :
    filterRegions sub (observedRegions rows) = sub := by
  unfold filterRegions
  by_cases he : (observedRegions rows).isEmpty
  · rw [if_pos he]
  · rw [if_neg he]
    apply List.filter_eq_self.mpr
    intro r hr
    obtain ⟨v, hv⟩ := Option.isSome_iff_exists.mp (h r (hsub r hr))
    simp only [inOpt, hv, decide_eq_true_eq]
    exact (mem_sortedUnique _ v).mpr (List.mem_map.mpr ⟨r, hsub r hr, hv⟩)

theorem filterProducts_observed (rows sub : List NormRow)
    (hsub : ∀ r ∈ sub, r ∈ rows)
    (h : ∀ r ∈ rows, r.productName.isSome = true) :
    filterProducts sub (observedProducts rows) = sub := by
  unfold filterProducts
  by_cases he : (observedProducts rows).isEmpty
  · rw [if_pos he]
  · rw [if_neg he]
    apply List.filter_eq_self.mpr
    intro r hr
    obtain ⟨v, hv⟩ := Option.isSome_iff_exists.mp (h r (hsub r hr))
    simp only [inOpt, hv, decide_eq_true_eq]
    exact (mem_sortedUnique _ v).mpr (List.mem_map.mpr ⟨r, hsub r hr, hv⟩)

/-- C2 counterexample: on a normalized dataset where one row has a null
`year`, filtering with the full set of observed years drops that row while
the empty selection keeps it, so the two filtered results differ. -/
theorem c2_counterexample :
    applyFilters c2Rows (observedYears c2Rows) [] [] ≠
      applyFilters c2Rows [] [] [] := by decide

/-- C2 (amended): the empty-selection / full-observed-set equivalence
holds for a dimension whenever no row has a null value in that dimension
(always true for `region` after `load_data`; for `year` and
`product_name`, rows with a null value are kept by the empty selection but
dropped by `isin` on the full observed set). -/
theorem c2_no_restriction_equivalence (rows : List NormRow) (ys : List Int)
    (rs ps : List String) :
    ((∀ r ∈ rows, (yearOf r).isSome = true) →
      applyFilters rows (observedYears rows) rs ps =
        applyFilters rows [] rs ps) ∧
    ((∀ r ∈ rows, r.region.isSome = true) →
      applyFilters rows ys (observedRegions rows) ps =
        applyFilters rows ys [] ps) ∧
    ((∀ r ∈ rows, r.productName.isSome = true) →
      applyFilters rows ys rs (observedProducts rows) =
        applyFilters rows ys rs []) := by
  refine ⟨fun h => ?_, fun h => ?_, fun h => ?_⟩
  · unfold applyFilters
    rw [filterYears_observed rows h]
    rfl
  · unfold applyFilters
    rw [filterRegions_observed rows (filterYears rows ys)
      (fun r hr => mem_of_filterYears hr) h]
    rfl
  · unfold applyFilters
    rw [filterProducts_observed rows (filterRegions (filterYears rows ys) rs)
      (fun r hr => mem_of_filterYears (mem_of_filterRegions hr)) h]
    rfl

/-- C2 witness: the equivalence instantiated for all three dimensions on a
dataset with no nulls. -/
theorem c2_witness :
    applyFilters c2AllRows (observedYears c2AllRows) [] [] =
      applyFilters c2AllRows [] [] [] ∧
    applyFilters c2AllRows [] (observedRegions c2AllRows) [] =
      applyFilters c2AllRows [] [] [] ∧
    applyFilters c2AllRows [] [] (observedProducts c2AllRows) =
      applyFilters c2AllRows [] [] [] :=
  ⟨(c2_no_restriction_equivalence c2AllRows [] [] []).1 (by decide),
   (c2_no_restriction_equivalence c2AllRows [] [] []).2.1 (by decide),
   (c2_no_restriction_equivalence c2AllRows [] [] []).2.2 (by decide)⟩

theorem mem_groupKeys {K : Type} [DecidableEq K] (le : K → K → Prop)
    [DecidableRel le] (key : NormRow → Option K) (rows : List NormRow)
    (k : K) : k ∈ groupKeys le key rows ↔ ∃ r ∈ rows, key r = some k := by
  unfold groupKeys
  rw [List.mem_insertionSort, List.mem_dedup, List.mem_filterMap]

theorem nodup_groupKeys {K : Type} [DecidableEq K] (le : K → K → Prop)
    [DecidableRel le] (key : NormRow → Option K) (rows : List NormRow) :
    (groupKeys le key rows).Nodup := by
  unfold groupKeys
  exact ((List.perm_insertionSort _ _).nodup_iff).mpr (List.nodup_dedup _)

theorem find?_map_pairs {K : Type} [DecidableEq K] (ks : List K)
    (f : K → Int) (k : K) :
    ((ks.map (fun x => (x, f x))).find?
      (fun e => decide (e.1 = k))).map (fun e => e.2) =
      if k ∈ ks then some (f k) else none := by
  induction ks with
  | nil => simp
  | cons a t ih =>
    by_cases h : a = k
    · subst h
      rw [List.map_cons, List.find?_cons_of_pos _ (by simp)]
      simp
    · rw [List.map_cons, List.find?_cons_of_neg _ (by simp [h]), ih]
      by_cases hm : k ∈ t
      · rw [if_pos hm, if_pos (List.mem_cons_of_mem a hm)]
      · rw [if_neg hm, if_neg ?_]
        intro hc
        rcases List.mem_cons.mp hc with hc | hc
        · exact h hc.symm
        · exact hm hc

theorem sumAt_of_not_mem {K : Type} [DecidableEq K] (le : K → K → Prop)
    [DecidableRel le] (key : NormRow → Option K) (val : NormRow → Option Int)
    (rows : List NormRow) (k : K) (h : k ∉ groupKeys le key rows) :
    sumAt key val rows k = 0 := by
  unfold sumAt
  have hfil : rows.filter (fun row => decide (key row = some k)) = [] := by
    apply List.filter_eq_nil_iff.mpr
    intro r hr hk
    exact h ((mem_groupKeys le key rows k).mpr
      ⟨r, hr, of_decide_eq_true hk⟩)
  rw [hfil]
  rfl

theorem lookup_groupSumBy {K : Type} [DecidableEq K] (le : K → K → Prop)
    [DecidableRel le] (key : NormRow → Option K) (val : NormRow → Option Int)
    (rows : List NormRow) (k : K) :
    (((groupSumBy le key val rows).find?
      (fun e => decide (e.1 = k))).map (fun e => e.2)).getD 0 =
      sumAt key val rows k := by
  unfold groupSumBy
  rw [find?_map_pairs]
  by_cases h : k ∈ groupKeys le key rows
  · rw [if_pos h]
    rfl
  · rw [if_neg h, sumAt_of_not_mem le key val rows k h]
    rfl

theorem yq_year (r : NormRow) (y : Int) :
    (∃ q, yqKey r = some (y, q)) ↔ yearOf r = some y := by
  cases hD : r.primaryDate <;> simp [yqKey, yearOf, hD]

theorem sum_map_const_four {α : Type} (l : List α) :
    (l.map (fun _ => (4 : Nat))).sum = 4 * l.length := by
  induction l with
  | nil => rfl
  | cons a t ih =>
    simp only [List.map_cons, List.sum_cons, List.length_cons, ih]
    omega

/-- C8: whenever the `year`/`quarter` columns and the value column exist
and some row has a non-null year, the quarterly chart draws one cluster
per distinct observed year — all of them, each with exactly the four
quarters Q1..Q4 and the zero-filled quarterly sums — for a total of
`4 × (number of distinct years)` entries. -/
theorem c8_quarterly_grid (nt : NormTable)
    (hd : nt.schema.hasDateCols = true)
    (hf : fieldExists nt.schema (timeField nt.schema) = true)
    (hy : ∃ r ∈ nt.rows, (yqKey r).isSome = true) :
    ∃ bars : List (Int × List Int),
      plot_quarterly_comparison nt = ChartResult.drawn bars ∧
      (bars.map (fun b => b.1)).Nodup ∧
      (∀ y : Int, y ∈ bars.map (fun b => b.1) ↔
        ∃ r ∈ nt.rows, yearOf r = some y) ∧
      (∀ b ∈ bars, b.2 = [1, 2, 3, 4].map (fun q => qSum nt b.1 q)) ∧
      (bars.map (fun b => b.2.length)).sum = 4 * bars.length := by
  classical
  obtain ⟨r0, hr0, hk0⟩ := hy
  obtain ⟨k0, hk0'⟩ := Option.isSome_iff_exists.mp hk0
  have hmem0 : k0 ∈ groupKeys ymRel yqKey nt.rows :=
    (mem_groupKeys ymRel yqKey nt.rows k0).mpr ⟨r0, hr0, hk0'⟩
  have hyearsmem : ∀ y : Int,
      (y ∈ ((quarterlyAggOn (timeField nt.schema) nt.rows).map
        (fun e => e.1.1)).dedup.insertionSort (fun a b => a ≤ b)) ↔
      ∃ r ∈ nt.rows, yearOf r = some y := by
    intro y
    rw [List.mem_insertionSort, List.mem_dedup]
    unfold quarterlyAggOn groupSumBy
    rw [List.map_map, List.mem_map]
    constructor
    · rintro ⟨k, hk, rfl⟩
      obtain ⟨r, hr, hkey⟩ := (mem_groupKeys ymRel yqKey nt.rows k).mp hk
      exact ⟨r, hr, (yq_year r k.1).mp ⟨k.2, by rwa [Prod.mk.eta]⟩⟩
    · rintro ⟨r, hr, hyear⟩
      obtain ⟨q, hq⟩ := (yq_year r y).mpr hyear
      exact ⟨(y, q), (mem_groupKeys ymRel yqKey nt.rows (y, q)).mpr
        ⟨r, hr, hq⟩, rfl⟩
  have hne : (((quarterlyAggOn (timeField nt.schema) nt.rows).map
      (fun e => e.1.1)).dedup.insertionSort (fun a b => a ≤ b)).isEmpty
      = false := by
    rw [List.isEmpty_eq_false_iff_exists_mem]
    refine ⟨k0.1, (hyearsmem k0.1).mpr ?_⟩
    obtain ⟨r, hr, hkey⟩ := (mem_groupKeys ymRel yqKey nt.rows k0).mp hmem0
    exact ⟨r, hr, (yq_year r k0.1).mp ⟨k0.2, by rwa [Prod.mk.eta]⟩⟩
  refine ⟨(((quarterlyAggOn (timeField nt.schema) nt.rows).map
      (fun e => e.1.1)).dedup.insertionSort (fun a b => a ≤ b)).map
      (fun y => (y, quarterValuesFrom
        (quarterlyAggOn (timeField nt.schema) nt.rows) y)), ?_, ?_, ?_, ?_, ?_⟩
  · unfold plot_quarterly_comparison quarterlyResult
    rw [hd, hf]
    simp only [Bool.true_eq_false, if_false, hne]
    rfl
  · rw [List.map_map]
    have : ((fun b : Int × List Int => b.1) ∘
        (fun y => (y, quarterValuesFrom
          (quarterlyAggOn (timeField nt.schema) nt.rows) y))) = id := rfl
    rw [this, List.map_id]
    exact ((List.perm_insertionSort _ _).nodup_iff).mpr (List.nodup_dedup _)
  · intro y
    rw [List.map_map]
    have : ((fun b : Int × List Int => b.1) ∘
        (fun y => (y, quarterValuesFrom
          (quarterlyAggOn (timeField nt.schema) nt.rows) y))) = id := rfl
    rw [this, List.map_id]
    exact hyearsmem y
  · intro b hb
    obtain ⟨y, -, rfl⟩ := List.mem_map.mp hb
    unfold quarterValuesFrom
    apply List.map_congr_left
    intro q _
    exact lookup_groupSumBy ymRel yqKey (fieldCell (timeField nt.schema))
      nt.rows (y, q)
  · rw [List.map_map]
    have hcomp : ((fun b : Int × List Int => b.2.length) ∘
        (fun y => (y, quarterValuesFrom
          (quarterlyAggOn (timeField nt.schema) nt.rows) y))) =
        (fun _ => (4 : Nat)) := by
      funext y
      rfl
    rw [hcomp, sum_map_const_four, List.length_map]

/-- C8 witness: the grid on a concrete table with one observed year. -/
theorem c8_witness :
    ∃ bars : List (Int × List Int),
      plot_quarterly_comparison c8Table = ChartResult.drawn bars ∧
      (bars.map (fun b => b.1)).Nodup ∧
      (∀ y : Int, y ∈ bars.map (fun b => b.1) ↔
        ∃ r ∈ c8Table.rows, yearOf r = some y) ∧
      (∀ b ∈ bars, b.2 = [1, 2, 3, 4].map (fun q => qSum c8Table b.1 q)) ∧
      (bars.map (fun b => b.2.length)).sum = 4 * bars.length :=
  c8_quarterly_grid c8Table rfl rfl (by decide)

theorem roseWedges_map_radius (n : Nat) (i : Nat) (l : List (String × Int)) :
    (roseWedges n i l).map (fun w => w.radius) = l.map (fun e => e.2) := by
  induction l generalizing i with
  | nil => rfl
  | cons e t ih =>
    cases e
    simp [roseWedges, ih]

theorem roseWedges_length (n : Nat) (i : Nat) (l : List (String × Int)) :
    (roseWedges n i l).length = l.length := by
  induction l generalizing i with
  | nil => rfl
  | cons e t ih =>
    cases e
    simp [roseWedges, ih]

theorem roseWedges_count (n : Nat) (i : Nat) (l : List (String × Int)) :
    ∀ w ∈ roseWedges n i l, w.count = n := by
  induction l generalizing i with
  | nil => intro w hw; cases hw
  | cons e t ih =>
    cases e
    intro w hw
    rcases List.mem_cons.mp hw with hw | hw
    · rw [hw]
    · exact ih (i + 1) w hw

theorem pairwise_sortDescByVal {K : Type} (l : List (K × Int)) :
    (sortDescByVal l).Pairwise (fun a b => b.2 ≤ a.2) := by
  unfold sortDescByVal
  haveI : IsTotal (K × Int) (fun a b => b.2 ≤ a.2) :=
    ⟨fun a b => le_total b.2 a.2⟩
  haveI : IsTrans (K × Int) (fun a b => b.2 ≤ a.2) :=
    ⟨fun a b c h1 h2 => le_trans h2 h1⟩
  exact List.sorted_insertionSort _ l

theorem pairwise_roseAggOn (nt : NormTable) (f : VField) :
    (roseAggOn nt f).Pairwise (fun a b => b.2 ≤ a.2) := by
  unfold roseAggOn
  exact (pairwise_sortDescByVal _).sublist (List.take_sublist _ _)

/-- C9: the rose transform warns on an empty category aggregate, and
otherwise draws the value-descending aggregate truncated to at most 12
categories, the radius of each wedge being its aggregate value and each wedge
spanning an equal angular width of 2π divided by the category count. -/
theorem c9_rose_shape (nt : NormTable)
    (hf : fieldExists nt.schema (distField nt.schema) = true) :
    (roseAggOn nt (distField nt.schema) = [] →
      plot_rose_chart nt = ChartResult.warned ("没有足够的数据绘制玫瑰图")) ∧
    (∀ ws, plot_rose_chart nt = ChartResult.drawn ws →
      ws.map (fun w => w.radius) =
        (roseAggOn nt (distField nt.schema)).map (fun e => e.2) ∧
      (ws.map (fun w => w.radius)).Pairwise (fun a b => b ≤ a) ∧
      ws.length ≤ 12 ∧ 1 ≤ ws.length ∧
      (∀ w ∈ ws, w.widthTurns = 1 / (ws.length : ℚ)) ∧
      (∀ w ∈ ws, (w.widthTurns : ℝ) * (2 * Real.pi) =
        2 * Real.pi / (ws.length : ℝ))) := by
  unfold plot_rose_chart roseResult
  rw [hf]
  simp only [Bool.true_eq_false, if_false]
  constructor
  · intro h
    rw [h]
    rfl
  · intro ws hws
    by_cases he : (roseAggOn nt (distField nt.schema)).isEmpty
    · rw [if_pos he] at hws
      cases hws
    · rw [if_neg he] at hws
      have hws' : ws = roseWedges (roseAggOn nt (distField nt.schema)).length 0
          (roseAggOn nt (distField nt.schema)) :=
        (ChartResult.drawn.injEq _ _).mp hws.symm
      subst hws'
      have hlen : (roseWedges (roseAggOn nt (distField nt.schema)).length 0
          (roseAggOn nt (distField nt.schema))).length =
          (roseAggOn nt (distField nt.schema)).length :=
        roseWedges_length _ _ _
      have hpos : 0 < (roseAggOn nt (distField nt.schema)).length := by
        cases hagg : roseAggOn nt (distField nt.schema) with
        | nil => rw [hagg] at he; exact absurd rfl he
        | cons a t => exact Nat.succ_pos _
      refine ⟨roseWedges_map_radius _ _ _, ?_, ?_, ?_, ?_, ?_⟩
      · rw [roseWedges_map_radius]
        exact List.Pairwise.map _ (fun a b h => h) (pairwise_roseAggOn nt _)
      · rw [hlen]
        unfold roseAggOn
        exact le_trans (List.length_take_le _ _) (le_refl 12)
      · rw [hlen]
        exact hpos
      · intro w hw
        rw [hlen]
        unfold RoseWedge.widthTurns
        rw [roseWedges_count _ _ _ w hw]
      · intro w hw
        have hc := roseWedges_count _ _ _ w hw
        unfold RoseWedge.widthTurns
        rw [hc, hlen]
        have hne0 : ((roseAggOn nt (distField nt.schema)).length : ℝ) ≠ 0 := by
          exact_mod_cast Nat.pos_iff_ne_zero.mp hpos
        push_cast
        field_simp

/-- C9 witness: the rose-chart properties on a concrete one-category
aggregate. -/
theorem c9_witness :
    ([⟨0, 1, 12, "上衣"⟩] : List RoseWedge).map (fun w => w.radius) =
      (roseAggOn c9Table (distField c9Table.schema)).map (fun e => e.2) ∧
    (([⟨0, 1, 12, "上衣"⟩] : List RoseWedge).map
      (fun w => w.radius)).Pairwise (fun a b => b ≤ a) ∧
    ([⟨0, 1, 12, "上衣"⟩] : List RoseWedge).length ≤ 12 ∧
    1 ≤ ([⟨0, 1, 12, "上衣"⟩] : List RoseWedge).length ∧
    (∀ w ∈ ([⟨0, 1, 12, "上衣"⟩] : List RoseWedge), w.widthTurns =
      1 / (([⟨0, 1, 12, "上衣"⟩] : List RoseWedge).length : ℚ)) ∧
    (∀ w ∈ ([⟨0, 1, 12, "上衣"⟩] : List RoseWedge),
      (w.widthTurns : ℝ) * (2 * Real.pi) =
        2 * Real.pi / (([⟨0, 1, 12, "上衣"⟩] : List RoseWedge).length : ℝ)) :=
  (c9_rose_shape c9Table rfl).2 [⟨0, 1, 12, "上衣"⟩] (by decide)

/-- C10: the product filter is offered and applied only when the dataset
has a `product_name` column with at most 50 distinct non-null values — for
more than 50 no product restriction is applied at all — and when offered
with more than 10 distinct products the default selection is the first 10
in sorted order, so the default filtered view excludes every row whose
product is outside those 10. -/
theorem c10_product_filter_policy (nt : NormTable) :
    ((nt.schema.hasProductName = false ∨
        50 < (observedProducts nt.rows).length) →
      defaultProductSelection nt = [] ∧
      sidebarDefaultView nt =
        applyFilters nt.rows
          (if nt.schema.hasDateCols then observedYears nt.rows else [])
          (observedRegions nt.rows) []) ∧
    ((nt.schema.hasProductName = true ∧
        10 < (observedProducts nt.rows).length ∧
        (observedProducts nt.rows).length ≤ 50) →
      defaultProductSelection nt = (observedProducts nt.rows).take 10 ∧
      (∀ r ∈ nt.rows, ∀ p, r.productName = some p →
        p ∉ (observedProducts nt.rows).take 10 →
        r ∉ sidebarDefaultView nt)) := by
  constructor
  · intro h
    have hsel : defaultProductSelection nt = [] := by
      unfold defaultProductSelection productOptions
      rcases h with h | h
      · rw [h]
        rfl
      · cases hpn : nt.schema.hasProductName
        · rfl
        · simp only [if_true]
          rw [if_neg (by omega)]
    refine ⟨hsel, ?_⟩
    unfold sidebarDefaultView
    rw [hsel]
  · rintro ⟨hpn, h10, h50⟩
    have hsel : defaultProductSelection nt =
        (observedProducts nt.rows).take 10 := by
      unfold defaultProductSelection productOptions
      rw [hpn]
      simp only [if_true]
      rw [if_pos h50]
      show (if 10 < (observedProducts nt.rows).length
          then List.take 10 (observedProducts nt.rows)
          else observedProducts nt.rows) =
        List.take 10 (observedProducts nt.rows)
      rw [if_pos h10]
    refine ⟨hsel, ?_⟩
    intro r hr p hp hnotin hmem
    unfold sidebarDefaultView at hmem
    rw [hsel] at hmem
    unfold applyFilters filterProducts at hmem
    have hne : ((observedProducts nt.rows).take 10).isEmpty = false := by
      have : ((observedProducts nt.rows).take 10).length = 10 := by
        rw [List.length_take]
        omega
      cases hc : (observedProducts nt.rows).take 10 with
      | nil => rw [hc] at this; simp at this
      | cons a t => rfl
    rw [hne] at hmem
    simp only [Bool.false_eq_true, if_false] at hmem
    have hin := (List.mem_filter.mp hmem).2
    rw [hp] at hin
    exact hnotin (of_decide_eq_true hin)

/-- C10 witness: the default-selection truncation and the exclusion of
out-of-default products on a table with 11 distinct products. -/
theorem c10_witness :
    defaultProductSelection c10Table =
      (observedProducts c10Table.rows).take 10 ∧
    (∀ r ∈ c10Table.rows, ∀ p, r.productName = some p →
      p ∉ (observedProducts c10Table.rows).take 10 →
      r ∉ sidebarDefaultView c10Table) :=
  (c10_product_filter_policy c10Table).2 (by decide)

end Dashboard
